import Mathlib

/-!
# Verification of the insurance-PDF viewer/chat front end

Shallow embedding of the repository's source files:

* `src/page.tsx` — the page controller (`HomePage`): overview state,
  highlight Q&A state, the backend client `callRAG`, and the event
  handlers `handleFileLoaded` / `fetchOverviewForFile`, `handleSelection`,
  `handleClearSelection`, `handleHighlightSubmit`.
* `src/PDFInner.tsx` — the document viewer: file upload (`handleFileChange`
  with object-URL lifecycle), selection capture (`handleMouseUp`),
  highlight clearing (`handleMouseDown`), and the parse callbacks
  (`onDocumentLoadSuccess`, `onDocumentLoadError`).

Each asynchronous React handler is split into a synchronous phase (the
state updates performed before the first `await`, together with the
outgoing request) and a settle phase (the state update applied when the
backend promise resolves or rejects, as a function of the state current at
that moment — `setX(value)` overwrites, `setX(prev => ...)` reads the
current value, exactly as React applies them).
-/

/-- Embedding of `ChatMessage.role` in `src/page.tsx`: `"user" | "assistant"`. -/
inductive Role where
  | user
  | assistant
deriving DecidableEq, Repr

/-- Embedding of `ChatMessage` in `src/page.tsx`: `{ role; content: string }`. -/
structure ChatMessage where
  role : Role
  content : String
deriving DecidableEq, Repr

/-- Embedding of `RAGResponse` in `src/page.tsx`: `{ answer: string; chunks: any[] }`.
The chunks are opaque to the front end; they are modelled as an opaque
list. -/
structure RAGResponse where
  answer : String
  chunks : List Unit
deriving DecidableEq, Repr

/-- A parsed HTTP exchange as `fetch` delivers it to `callRAG`: the status
code and the JSON body (already parsed as a `RAGResponse`). -/
structure HTTPResponse where
  status : Nat
  body : RAGResponse
deriving DecidableEq, Repr

/-- Semantics of `Response.ok` of the fetch API: the status is in the inclusive range
200–299. -/
def respOk (r : HTTPResponse) : Bool :=
  200 ≤ r.status && r.status < 300

/-- An outgoing backend request: the endpoint path and the JSON body
(`question`, and for the overview endpoint also `file_name`). -/
structure RAGRequest where
  path : String
  question : String
  file_name : Option String
deriving DecidableEq, Repr

/-- JavaScript's `String.prototype.trim`, over the characters used here:
removes whitespace from both ends of the string. (Defined structurally
over the character list so that it evaluates inside the kernel.) -/
def jsTrim (s : String) : String :=
  String.mk
    (((s.data.dropWhile Char.isWhitespace).reverse.dropWhile Char.isWhitespace).reverse)

/-- Embedding of `callRAG` in `src/page.tsx`, as a function of the single HTTP exchange
it performs: if `!resp.ok` it throws `RAG request failed: <status>`;
otherwise it returns the parsed JSON body. -/
def callRAG (resp : HTTPResponse) : Except String RAGResponse :=
  if respOk resp then Except.ok resp.body
  else Except.error ("RAG request failed: " ++ toString resp.status)

/-- Embedding of `callRAG` against a queue of pending network responses: it performs
exactly one `fetch`, consuming exactly the head of the queue (no retries). -/
def callRAGOnce (responses : List HTTPResponse) :
    Option (Except String RAGResponse) × List HTTPResponse :=
  match responses with
  | [] => (none, [])
  | r :: rest => (some (callRAG r), rest)

/-! ## Page controller state (`HomePage` in `src/page.tsx`) -/

/-- The `useState` cells of `HomePage`: overview state (top-right panel)
and highlight Q&A state (bottom-right panel). -/
structure PageState where
  overviewText : String
  overviewLoading : Bool
  overviewError : Option String
  currentFileName : Option String
  selectedText : Option String
  highlightMessages : List ChatMessage
  highlightInput : String
deriving DecidableEq, Repr

/-- The initial values passed to `useState` in `HomePage`. -/
def initialPageState : PageState :=
  { overviewText := ""
    overviewLoading := false
    overviewError := none
    currentFileName := none
    selectedText := none
    highlightMessages := []
    highlightInput := "" }

/-- The overview prompt built in `fetchOverviewForFile` (the template
literal after `.trim()`), with the file name interpolated. -/
def overviewQuestion (fileName : String) : String :=
  "The user has uploaded a U.S. health-insurance related PDF named \"" ++
  fileName ++
  "\".\n\nBased on the retrieved chunks from this PDF and any closely related\ninsurance information in the knowledge base, write a concise summary.\n\nIn 5–7 short sentences:\n1. Explain what kind of document this is and who typically provides it (for example, an employer, insurance company, or government agency).\n2. Describe the main purpose of this document for the person reading it.\n3. Highlight 3–4 key things the reader should pay attention to (such as who is covered, premium costs, deductibles/copays, important deadlines, and what to do if something looks wrong).\n\nUse simple language. Bold important terms with **this style**."

/-- The fixed fallback shown when the overview call fails
(`setOverviewError(...)` in the catch block of `fetchOverviewForFile`). -/
def overviewFallback : String :=
  "Sorry, I could not load the document overview from the server."

/-- The synchronous prefix of `fetchOverviewForFile`: before the `await`,
it sets the loading flag, clears the error and clears the text. -/
def fetchOverviewStart (s : PageState) : PageState :=
  { s with overviewLoading := true, overviewError := none, overviewText := "" }

/-- The request `fetchOverviewForFile` sends:
`callRAG("/api/rag/overview", { question, file_name: fileName })`. -/
def overviewRequest (fileName : String) : RAGRequest :=
  { path := "/api/rag/overview"
    question := overviewQuestion fileName
    file_name := some fileName }

/-- The settle phase of `fetchOverviewForFile`: on success it stores the
answer text; on failure it stores the fixed fallback message; the
`finally` block clears the loading flag in both cases. -/
def fetchOverviewSettle (s : PageState) :
    Except String RAGResponse → PageState
  | Except.ok res =>
      { s with overviewText := res.answer, overviewLoading := false }
  | Except.error _ =>
      { s with overviewError := some overviewFallback, overviewLoading := false }

/-- Embedding of `handleFileLoaded` in `src/page.tsx`, synchronous phase: stores the
file name, resets the highlight state (selected text, conversation,
input), and calls `fetchOverviewForFile`, whose synchronous prefix runs
before its `await`; returns the new state and the request sent. -/
def handleFileLoadedSync (s : PageState) (fileName : String) :
    PageState × RAGRequest :=
  (fetchOverviewStart
      { s with currentFileName := some fileName
               selectedText := none
               highlightMessages := []
               highlightInput := "" },
   overviewRequest fileName)

/-- The highlight-explanation prompt built in `handleSelection` (the
template literal after `.trim()`), with the selected text interpolated. -/
def highlightQuestion (text : String) : String :=
  "You are explaining one short sentence from a U.S. health insurance form\nto a normal person with no insurance background.\n\nHighlighted text:\n\"" ++
  text ++
  "\"\n\nIn **no more than 3 short sentences**, explain:\n- What this part is saying in simple words,\n- What it means for the person reading or filling out the form,\n- If needed, mention **one** thing they should be careful about (such as deadlines or coverage limits).\n\nUse clear language and bold important terms with **this style**."

/-- The fixed apology appended when the initial highlight call fails
(the catch block of `handleSelection`). -/
def highlightApology : String :=
  "Sorry, I could not get an explanation from the server. Please try again later."

/-- Embedding of `handleSelection` in `src/page.tsx`, synchronous phase: stores the
selected text, empties the conversation and the input, and sends
`callRAG("/api/rag/highlight", { question })`. -/
def handleSelectionSync (s : PageState) (text : String) :
    PageState × RAGRequest :=
  ({ s with selectedText := some text
            highlightMessages := []
            highlightInput := "" },
   { path := "/api/rag/highlight"
     question := highlightQuestion text
     file_name := none })

/-- Embedding of `handleSelection`, settle phase: in both the success and the failure
branch it calls `setHighlightMessages([ ... ])` with a one-element array —
it overwrites the conversation with exactly one assistant message. -/
def handleSelectionSettle (s : PageState) :
    Except String RAGResponse → PageState
  | Except.ok res =>
      { s with highlightMessages := [{ role := Role.assistant, content := res.answer }] }
  | Except.error _ =>
      { s with highlightMessages := [{ role := Role.assistant, content := highlightApology }] }

/-- Embedding of `handleClearSelection` in `src/page.tsx`: resets the highlight flow
(selected text, conversation, input). -/
def handleClearSelection (s : PageState) : PageState :=
  { s with selectedText := none
           highlightMessages := []
           highlightInput := "" }

/-- The controlled input's `onChange`: `setHighlightInput(e.target.value)`. -/
def setHighlightInputState (s : PageState) (t : String) : PageState :=
  { s with highlightInput := t }

/-- The follow-up prompt built in `handleHighlightSubmit` (the template
literal after `.trim()`), embedding the original selection and the new
question. -/
def followupQuestion (selectedText trimmed : String) : String :=
  "We are discussing this highlighted text from a U.S. health insurance form:\n\"" ++
  selectedText ++
  "\"\n\nThe user now asks:\n\"" ++
  trimmed ++
  "\"\n\nAnswer in **no more than 3 short sentences**, focusing only on what the user really needs to know.\nUse simple language and bold important terms with **this style**."

/-- The fixed apology appended when the follow-up call fails (the catch
block of `handleHighlightSubmit`). -/
def followupApology : String :=
  "Sorry, I could not get a follow-up answer from the server."

/-- Embedding of `handleHighlightSubmit` in `src/page.tsx`, synchronous phase. The
guard is `if (!trimmed || !selectedText) return;` — JavaScript truthiness:
it returns when the trimmed input is empty, or when `selectedText` is
`null` or the empty string. When the guard passes it appends the user
message optimistically, clears the input, and sends the follow-up
request; returns the new state and the request (`none` when the guard
returned early). -/
def handleHighlightSubmitSync (s : PageState) : PageState × Option RAGRequest :=
  let trimmed := jsTrim s.highlightInput
  if trimmed = "" then (s, none)
  else
    match s.selectedText with
    | none => (s, none)
    | some sel =>
        if sel = "" then (s, none)
        else
          ({ s with highlightMessages :=
                      s.highlightMessages ++ [{ role := Role.user, content := trimmed }]
                    highlightInput := "" },
           some { path := "/api/rag/highlight"
                  question := followupQuestion sel trimmed
                  file_name := none })

/-- Embedding of `handleHighlightSubmit`, settle phase: both branches call
`setHighlightMessages(prev => [...prev, msg])` — they append exactly one
assistant message (the answer, or the fixed apology) to the conversation
current at settle time. -/
def handleHighlightSubmitSettle (s : PageState) :
    Except String RAGResponse → PageState
  | Except.ok res =>
      { s with highlightMessages :=
                 s.highlightMessages ++ [{ role := Role.assistant, content := res.answer }] }
  | Except.error _ =>
      { s with highlightMessages :=
                 s.highlightMessages ++ [{ role := Role.assistant, content := followupApology }] }

/-! ## Document viewer (`PDFInner` in `src/PDFInner.tsx`) -/

/-- A DOM client rectangle, as `getBoundingClientRect` returns it
(pixel coordinates, modelled over `Int`). -/
structure DOMRect where
  top : Int
  left : Int
  width : Int
  height : Int
deriving DecidableEq, Repr

/-- Embedding of `HighlightRect` in `src/PDFInner.tsx`: `{ top; left; width; height }`
relative to the viewer container. -/
structure HighlightRect where
  top : Int
  left : Int
  width : Int
  height : Int
deriving DecidableEq, Repr

/-- The browser selection as `handleMouseUp` reads it:
`selection.isCollapsed`, `selection.toString()`, and the bounding
rectangle of its first range. -/
structure SelectionState where
  isCollapsed : Bool
  content : String
  rangeRect : DOMRect
deriving DecidableEq, Repr

/-- The container element as `handleMouseUp` reads it: its bounding
rectangle and scroll offsets. -/
structure ContainerInfo where
  rect : DOMRect
  scrollTop : Int
  scrollLeft : Int
deriving DecidableEq, Repr

/-- The `useState` cells of `PDFInner`: the chosen file (by name), the
object URL (by identifier), the page count, and the highlight overlay
rectangle. -/
structure PDFState where
  fileObj : Option String
  fileUrl : Option Nat
  numPages : Nat
  highlightRect : Option HighlightRect
deriving DecidableEq, Repr

/-- The initial values passed to `useState` in `PDFInner`. -/
def initialPDFState : PDFState :=
  { fileObj := none, fileUrl := none, numPages := 1, highlightRect := none }

/-- A callback invocation out of `PDFInner`: `onSelection(text)`,
`onClearSelection()` or `onFileLoaded(name)`. -/
inductive ViewerEvent where
  | selectionMade (text : String)
  | selectionCleared
  | fileLoaded (name : String)
deriving DecidableEq, Repr

/-- One call into the browser's object-URL API. -/
inductive URLAction where
  | create (id : Nat)
  | revoke (id : Nat)
deriving DecidableEq, Repr

/-- The browser's object-URL registry: a fresh-id counter, the URLs
currently alive, and the chronological log of API calls. -/
structure URLEnv where
  nextId : Nat
  alive : List Nat
  log : List URLAction
deriving DecidableEq, Repr

/-- The registry before any upload. -/
def initialURLEnv : URLEnv :=
  { nextId := 0, alive := [], log := [] }

/-- Embedding of `URL.createObjectURL(file)`: returns a fresh URL and records it
alive. -/
def createObjectURL (env : URLEnv) : Nat × URLEnv :=
  (env.nextId,
   { nextId := env.nextId + 1
     alive := env.nextId :: env.alive
     log := env.log ++ [URLAction.create env.nextId] })

/-- Embedding of `URL.revokeObjectURL(u)`: removes `u` from the alive set. -/
def revokeObjectURL (env : URLEnv) (u : Nat) : URLEnv :=
  { env with alive := env.alive.erase u
             log := env.log ++ [URLAction.revoke u] }

/-- Embedding of `handleFileChange` in `src/PDFInner.tsx`. When the picker yields no
file it returns at once (no state change, no callback, no URL call).
Otherwise it stores the file, revokes the previous object URL when one
exists, creates a fresh one, clears the highlight rectangle, and then
invokes `onClearSelection()` followed by `onFileLoaded(file.name)` — in
that order. Returns the new component state, the new URL registry, and
the callback invocations in order. -/
def handleFileChange (s : PDFState) (env : URLEnv) (file : Option String) :
    PDFState × URLEnv × List ViewerEvent :=
  match file with
  | none => (s, env, [])
  | some f =>
      let env1 :=
        match s.fileUrl with
        | some u => revokeObjectURL env u
        | none => env
      let c := createObjectURL env1
      ({ s with fileObj := some f
                fileUrl := some c.1
                highlightRect := none },
       c.2,
       [ViewerEvent.selectionCleared, ViewerEvent.fileLoaded f])

/-- The cleanup of the `useEffect` over `fileUrl`: on unmount (or when
the URL cell changes) it revokes the current URL when one exists. -/
def effectCleanup (s : PDFState) (env : URLEnv) : URLEnv :=
  match s.fileUrl with
  | some u => revokeObjectURL env u
  | none => env

/-- Embedding of `onDocumentLoadSuccess` in `src/PDFInner.tsx`: stores the page
count. -/
def onDocumentLoadSuccess (s : PDFState) (numPages : Nat) : PDFState :=
  { s with numPages := numPages }

/-- Embedding of `onDocumentLoadError` in `src/PDFInner.tsx`: it only calls
`console.error("PDF load error:", error)` — the component state is left
unchanged and no callback is invoked. -/
def onDocumentLoadError (s : PDFState) (_error : String) : PDFState :=
  s

/-- Embedding of `handleMouseUp` in `src/PDFInner.tsx`. Returns early (no state
change, no callback) when there is no selection, the selection is
collapsed, the trimmed selection text is empty, or the container ref is
unset. Otherwise it computes the selection rectangle relative to the
container (adding the scroll offsets), stores it as the highlight
rectangle, and invokes `onSelection` with the trimmed text. -/
def handleMouseUp (s : PDFState) (sel : Option SelectionState)
    (container : Option ContainerInfo) : PDFState × List ViewerEvent :=
  match sel with
  | none => (s, [])
  | some selection =>
      if selection.isCollapsed then (s, [])
      else
        let text := jsTrim selection.content
        if text = "" then (s, [])
        else
          match container with
          | none => (s, [])
          | some c =>
              let top := selection.rangeRect.top - c.rect.top + c.scrollTop
              let left := selection.rangeRect.left - c.rect.left + c.scrollLeft
              ({ s with highlightRect :=
                          some { top := top
                                 left := left
                                 width := selection.rangeRect.width
                                 height := selection.rangeRect.height } },
               [ViewerEvent.selectionMade text])

/-- Embedding of `handleMouseDown` in `src/PDFInner.tsx`: returns early when the
container ref is unset; when the press lands on the container background
itself (not on rendered text) it clears the highlight rectangle, invokes
`onClearSelection()`, and collapses the browser selection; otherwise it
does nothing. -/
def handleMouseDown (s : PDFState) (hasContainer targetIsContainer : Bool) :
    PDFState × List ViewerEvent :=
  if !hasContainer then (s, [])
  else if targetIsContainer then
    ({ s with highlightRect := none }, [ViewerEvent.selectionCleared])
  else (s, [])

/-- A user/browser event delivered to `PDFInner`. -/
inductive PDFEvent where
  | fileChange (file : Option String)
  | mouseUp (sel : Option SelectionState) (container : Option ContainerInfo)
  | mouseDown (hasContainer targetIsContainer : Bool)
  | loadSuccess (numPages : Nat)
  | loadError (error : String)
deriving Repr

/-- The viewer component together with the browser's URL registry. -/
structure PDFSys where
  st : PDFState
  env : URLEnv
deriving DecidableEq, Repr

/-- The viewer system before any event. -/
def initialPDFSys : PDFSys :=
  { st := initialPDFState, env := initialURLEnv }

/-- One event step of the viewer system: only `handleFileChange` touches
the URL registry. -/
def pdfStep (sys : PDFSys) : PDFEvent → PDFSys
  | PDFEvent.fileChange f =>
      let r := handleFileChange sys.st sys.env f
      { st := r.1, env := r.2.1 }
  | PDFEvent.mouseUp sel c =>
      { sys with st := (handleMouseUp sys.st sel c).1 }
  | PDFEvent.mouseDown hc tc =>
      { sys with st := (handleMouseDown sys.st hc tc).1 }
  | PDFEvent.loadSuccess n =>
      { sys with st := onDocumentLoadSuccess sys.st n }
  | PDFEvent.loadError e =>
      { sys with st := onDocumentLoadError sys.st e }

/-- Run the viewer system over a trace of events. -/
def pdfRun (tr : List PDFEvent) : PDFSys :=
  tr.foldl pdfStep initialPDFSys

/-- Invariant of the viewer system: the object URLs alive in the browser
are exactly the one held in the component's `fileUrl` cell. -/
def PDFInv (sys : PDFSys) : Prop :=
  sys.env.alive = sys.st.fileUrl.toList


/-! ## Reachable page-controller states

The page controller's state changes only through its handlers.
`onSelection` is invoked solely from `handleMouseUp` in `src/PDFInner.tsx`,
which passes `selection.toString().trim()` only after checking it is
non-empty (`if (!text) return;`) — hence the non-emptiness hypothesis on
the `selection` constructor (justified formally by
`mouseUp_selection_nonempty` below). Synchronous phases and settle phases
appear as separate steps, so every interleaving of in-flight requests is
covered. -/

inductive PageReach : PageState → Prop where
  | init : PageReach initialPageState
  | fileLoaded (s : PageState) (name : String) :
      PageReach s → PageReach (handleFileLoadedSync s name).1
  | overviewSettle (s : PageState) (r : Except String RAGResponse) :
      PageReach s → PageReach (fetchOverviewSettle s r)
  | selection (s : PageState) (text : String) :
      PageReach s → text ≠ "" → PageReach (handleSelectionSync s text).1
  | selectionSettle (s : PageState) (r : Except String RAGResponse) :
      PageReach s → PageReach (handleSelectionSettle s r)
  | clear (s : PageState) :
      PageReach s → PageReach (handleClearSelection s)
  | inputChanged (s : PageState) (t : String) :
      PageReach s → PageReach (setHighlightInputState s t)
  | submitSync (s : PageState) :
      PageReach s → PageReach (handleHighlightSubmitSync s).1
  | submitSettle (s : PageState) (r : Except String RAGResponse) :
      PageReach s → PageReach (handleHighlightSubmitSettle s r)

/-- The handler `handleMouseUp` only ever emits `onSelection` with a non-empty
string: the text it passes is the trimmed selection, emitted only after
the `if (!text) return;` guard. -/
theorem mouseUp_selection_nonempty (s : PDFState) (sel : Option SelectionState)
    (c : Option ContainerInfo) (t : String)
    (h : ViewerEvent.selectionMade t ∈ (handleMouseUp s sel c).2) : t ≠ "" := by
  match sel with
  | none => simp [handleMouseUp] at h
  | some selection =>
    by_cases hcol : selection.isCollapsed
    · simp [handleMouseUp, hcol] at h
    · by_cases htr : jsTrim selection.content = ""
      · simp [handleMouseUp, hcol, htr] at h
      · match c with
        | none => simp [handleMouseUp, hcol, htr] at h
        | some ci =>
          simp [handleMouseUp, hcol, htr] at h
          intro ht
          exact htr (h ▸ ht)

/-- The settle phases never touch `selectedText`. -/
theorem fetchOverviewSettle_selectedText (s : PageState)
    (r : Except String RAGResponse) :
    (fetchOverviewSettle s r).selectedText = s.selectedText := by
  cases r <;> rfl

theorem handleSelectionSettle_selectedText (s : PageState)
    (r : Except String RAGResponse) :
    (handleSelectionSettle s r).selectedText = s.selectedText := by
  cases r <;> rfl

theorem handleHighlightSubmitSettle_selectedText (s : PageState)
    (r : Except String RAGResponse) :
    (handleHighlightSubmitSettle s r).selectedText = s.selectedText := by
  cases r <;> rfl

/-- The synchronous phase of the follow-up handler never touches
`selectedText`. -/
theorem handleHighlightSubmitSync_selectedText (s : PageState) :
    (handleHighlightSubmitSync s).1.selectedText = s.selectedText := by
  unfold handleHighlightSubmitSync
  dsimp only
  split
  · rfl
  · split
    · rfl
    · split <;> rfl

/-- Invariant of the running page: the active selection is never the
empty string (it is `null` or a non-empty string), because
`handleSelection` only ever receives non-empty text. -/
theorem reach_selectedText_ne_empty (s : PageState) (h : PageReach s) :
    s.selectedText ≠ some "" := by
  induction h with
  | init => simp [initialPageState]
  | fileLoaded s name _ _ =>
      simp [handleFileLoadedSync, fetchOverviewStart]
  | overviewSettle s r _ ih =>
      rw [fetchOverviewSettle_selectedText]; exact ih
  | selection s text _ hne _ =>
      simp [handleSelectionSync]
      exact hne
  | selectionSettle s r _ ih =>
      rw [handleSelectionSettle_selectedText]; exact ih
  | clear s _ _ => simp [handleClearSelection]
  | inputChanged s t _ ih =>
      simp only [setHighlightInputState]
      exact ih
  | submitSync s _ ih =>
      rw [handleHighlightSubmitSync_selectedText]; exact ih
  | submitSettle s r _ ih =>
      rw [handleHighlightSubmitSettle_selectedText]; exact ih

/-- Whenever the trimmed input is non-empty and the selection is a
non-empty string, the follow-up submit handler sends a request. -/
theorem submitSync_fires (p : PageState) (t : String)
    (h1 : jsTrim p.highlightInput ≠ "") (h2 : p.selectedText = some t)
    (h3 : t ≠ "") : ((handleHighlightSubmitSync p).2).isSome = true := by
  unfold handleHighlightSubmitSync
  dsimp only
  rw [if_neg h1, h2]
  dsimp only
  rw [if_neg h3]
  rfl

/-! ## The claims -/

/-- C1: on every file-loaded event the page controller first resets the
prior overview state and the highlight state (selected text,
conversation, input) and enters the loading state (loading flag set,
error cleared, text cleared, file name stored, overview request sent);
on a successful backend reply the overview transitions loading → ready
with the returned answer text (error still clear), and on a failed reply
loading → error with the fixed fallback message, with the loading flag
cleared in both cases. -/
theorem overview_flow_correct (s : PageState) (fn : String)
    (res : RAGResponse) (e : String) :
    ((handleFileLoadedSync s fn).1.selectedText = none ∧
     (handleFileLoadedSync s fn).1.highlightMessages = [] ∧
     (handleFileLoadedSync s fn).1.highlightInput = "" ∧
     (handleFileLoadedSync s fn).1.currentFileName = some fn ∧
     (handleFileLoadedSync s fn).1.overviewLoading = true ∧
     (handleFileLoadedSync s fn).1.overviewError = none ∧
     (handleFileLoadedSync s fn).1.overviewText = "" ∧
     (handleFileLoadedSync s fn).2 = overviewRequest fn) ∧
    ((fetchOverviewSettle (handleFileLoadedSync s fn).1 (Except.ok res)).overviewText
        = res.answer ∧
     (fetchOverviewSettle (handleFileLoadedSync s fn).1 (Except.ok res)).overviewError
        = none ∧
     (fetchOverviewSettle (handleFileLoadedSync s fn).1 (Except.ok res)).overviewLoading
        = false) ∧
    ((fetchOverviewSettle (handleFileLoadedSync s fn).1 (Except.error e)).overviewError
        = some overviewFallback ∧
     (fetchOverviewSettle (handleFileLoadedSync s fn).1 (Except.error e)).overviewLoading
        = false) :=
  ⟨⟨rfl, rfl, rfl, rfl, rfl, rfl, rfl, rfl⟩, ⟨rfl, rfl, rfl⟩, ⟨rfl, rfl⟩⟩

/-- C3: `callRAG` raises an error if and only if the HTTP status is not
successful (outside 200–299); on a successful status it returns the
parsed JSON body; and it performs exactly one fetch, consuming exactly
one pending network response (no retries). -/
theorem callRAG_error_iff_not_ok (resp : HTTPResponse) (rs : List HTTPResponse) :
    ((∃ e, callRAG resp = Except.error e) ↔
        ¬(200 ≤ resp.status ∧ resp.status < 300)) ∧
    (callRAG resp = Except.ok resp.body ↔
        (200 ≤ resp.status ∧ resp.status < 300)) ∧
    callRAGOnce (resp :: rs) = (some (callRAG resp), rs) := by
  by_cases h : 200 ≤ resp.status ∧ resp.status < 300
  · have hb : respOk resp = true := by simp [respOk, h.1, h.2]
    refine ⟨?_, ?_, rfl⟩
    · simp [callRAG, hb, h]
    · simp [callRAG, hb, h]
  · have hb : respOk resp = false := by
      simp only [respOk, Bool.and_eq_false_iff, decide_eq_false_iff_not]
      rcases Classical.em (200 ≤ resp.status) with h1 | h1
      · exact Or.inr fun h2 => h ⟨h1, h2⟩
      · exact Or.inl h1
    refine ⟨?_, ?_, rfl⟩
    · simp [callRAG, hb, h]
    · simp [callRAG, hb, h]

/-- C8: a selection-cleared event resets the highlight flow to idle
(selected text `null`, conversation empty, input empty), and a new
selection-made event restarts it with the new text; in both cases the
prior conversation log is discarded. -/
theorem clear_and_new_selection_reset (s : PageState) (text : String) :
    ((handleClearSelection s).selectedText = none ∧
     (handleClearSelection s).highlightMessages = [] ∧
     (handleClearSelection s).highlightInput = "") ∧
    ((handleSelectionSync s text).1.selectedText = some text ∧
     (handleSelectionSync s text).1.highlightMessages = [] ∧
     (handleSelectionSync s text).1.highlightInput = "") :=
  ⟨⟨rfl, rfl, rfl⟩, ⟨rfl, rfl, rfl⟩⟩

/-- C9: when the initial highlight-explanation request settles, the
handler sets the conversation to exactly a one-element list containing
the assistant message (the answer on success, the fixed apology on
failure), overwriting whatever the conversation contains at that moment —
in particular, a user follow-up message appended while the initial
request was in flight is discarded (the settled state is identical with
or without it). -/
theorem initial_reply_overwrites_conversation (s : PageState)
    (res : RAGResponse) (e : String) (u : String)
    (r : Except String RAGResponse) :
    (handleSelectionSettle s (Except.ok res)).highlightMessages =
      [{ role := Role.assistant, content := res.answer }] ∧
    (handleSelectionSettle s (Except.error e)).highlightMessages =
      [{ role := Role.assistant, content := highlightApology }] ∧
    handleSelectionSettle
        { s with highlightMessages :=
            s.highlightMessages ++ [{ role := Role.user, content := u }] } r =
      handleSelectionSettle s r := by
  refine ⟨rfl, rfl, ?_⟩
  cases r <;> rfl

/-- C10: choosing a file from the picker invokes the file-loaded
callback at once — before the PDF document is parsed — so the page
controller issues the overview request (loading flag set, request sent)
even for a file that later fails to parse; the parse-error callback only
logs and leaves the viewer state unchanged. -/
theorem fileLoaded_emitted_before_parse (s : PDFState) (env : URLEnv)
    (f : String) (p : PageState) (err : String) :
    (handleFileChange s env (some f)).2.2 =
      [ViewerEvent.selectionCleared, ViewerEvent.fileLoaded f] ∧
    onDocumentLoadError s err = s ∧
    (handleFileLoadedSync p f).1.overviewLoading = true ∧
    (handleFileLoadedSync p f).2 = overviewRequest f :=
  ⟨rfl, rfl, rfl, rfl⟩

/-- C2: for every follow-up submission in a reachable page state whose
trimmed input is non-empty and whose active selection is non-null, the
synchronous phase appends the user message (with the trimmed text) to the
conversation and clears the input before the backend call resolves, the
outgoing request goes to the highlight endpoint with a prompt embedding
both the original selected text and the new question, and the settle
phase appends exactly one assistant message — the backend's answer on
success, the fixed apology on failure. -/
theorem followup_submit_correct (s : PageState) (hreach : PageReach s)
    (sel : String) (hsel : s.selectedText = some sel)
    (hin : jsTrim s.highlightInput ≠ "") :
    ((handleHighlightSubmitSync s).1 =
      { s with highlightMessages :=
                 s.highlightMessages ++
                   [{ role := Role.user, content := jsTrim s.highlightInput }]
               highlightInput := "" }) ∧
    ((handleHighlightSubmitSync s).2 =
      some { path := "/api/rag/highlight"
             question := followupQuestion sel (jsTrim s.highlightInput)
             file_name := none }) ∧
    (∃ a b c, followupQuestion sel (jsTrim s.highlightInput) =
        a ++ sel ++ b ++ jsTrim s.highlightInput ++ c) ∧
    (∀ res : RAGResponse,
        handleHighlightSubmitSettle (handleHighlightSubmitSync s).1 (Except.ok res) =
          { (handleHighlightSubmitSync s).1 with
              highlightMessages :=
                (handleHighlightSubmitSync s).1.highlightMessages ++
                  [{ role := Role.assistant, content := res.answer }] }) ∧
    (∀ e : String,
        handleHighlightSubmitSettle (handleHighlightSubmitSync s).1 (Except.error e) =
          { (handleHighlightSubmitSync s).1 with
              highlightMessages :=
                (handleHighlightSubmitSync s).1.highlightMessages ++
                  [{ role := Role.assistant, content := followupApology }] }) := by
  have hne : sel ≠ "" := by
    intro h
    exact reach_selectedText_ne_empty s hreach (by rw [hsel, h])
  have hmain : handleHighlightSubmitSync s =
      ({ s with highlightMessages :=
                  s.highlightMessages ++
                    [{ role := Role.user, content := jsTrim s.highlightInput }]
                highlightInput := "" },
       some { path := "/api/rag/highlight"
              question := followupQuestion sel (jsTrim s.highlightInput)
              file_name := none }) := by
    unfold handleHighlightSubmitSync
    dsimp only
    rw [if_neg hin, hsel]
    dsimp only
    rw [if_neg hne]
  exact ⟨by rw [hmain], by rw [hmain],
    ⟨"We are discussing this highlighted text from a U.S. health insurance form:\n\"",
     "\"\n\nThe user now asks:\n\"",
     "\"\n\nAnswer in **no more than 3 short sentences**, focusing only on what the user really needs to know.\nUse simple language and bold important terms with **this style**.",
     rfl⟩,
    fun _ => rfl, fun _ => rfl⟩

/-- Witness for C2 at a concrete reachable state: the user selects
"Coinsurance: 20%" and types "What does that mean?". -/
theorem followup_submit_correct_witness :
    (handleHighlightSubmitSync
        (setHighlightInputState
          (handleSelectionSync initialPageState "Coinsurance: 20%").1
          "What does that mean?")).2 =
      some { path := "/api/rag/highlight"
             question :=
               followupQuestion "Coinsurance: 20%"
                 (jsTrim (setHighlightInputState
                     (handleSelectionSync initialPageState "Coinsurance: 20%").1
                     "What does that mean?").highlightInput)
             file_name := none } :=
  (followup_submit_correct
      (setHighlightInputState
        (handleSelectionSync initialPageState "Coinsurance: 20%").1
        "What does that mean?")
      (PageReach.inputChanged _ _
        (PageReach.selection _ _ PageReach.init (by decide)))
      "Coinsurance: 20%" rfl (by decide)).2.1

/-- C4: on every selection-made event (these carry non-empty text, see
`mouseUp_selection_nonempty`), the controller stores the selection,
empties the conversation and input, and sends a prompt embedding the
selected text to the highlight endpoint; on success the conversation
holds exactly one assistant message with the backend's answer, on
failure exactly one fixed apology assistant message, and in both cases
the selection is still active and a further non-empty follow-up
submission fires a request (the flow is in the conversing state). -/
theorem selection_flow_correct (s : PageState) (text : String) (ht : text ≠ "") :
    (handleSelectionSync s text).1.selectedText = some text ∧
    (handleSelectionSync s text).1.highlightMessages = [] ∧
    (handleSelectionSync s text).1.highlightInput = "" ∧
    (handleSelectionSync s text).2 =
      { path := "/api/rag/highlight"
        question := highlightQuestion text
        file_name := none } ∧
    (∃ a b, highlightQuestion text = a ++ text ++ b) ∧
    (∀ res : RAGResponse,
        (handleSelectionSettle (handleSelectionSync s text).1 (Except.ok res)).highlightMessages =
          [{ role := Role.assistant, content := res.answer }] ∧
        (handleSelectionSettle (handleSelectionSync s text).1 (Except.ok res)).selectedText =
          some text) ∧
    (∀ e : String,
        (handleSelectionSettle (handleSelectionSync s text).1 (Except.error e)).highlightMessages =
          [{ role := Role.assistant, content := highlightApology }] ∧
        (handleSelectionSettle (handleSelectionSync s text).1 (Except.error e)).selectedText =
          some text) ∧
    (∀ (r : Except String RAGResponse) (input : String), jsTrim input ≠ "" →
        ((handleHighlightSubmitSync
            (setHighlightInputState
              (handleSelectionSettle (handleSelectionSync s text).1 r) input)).2).isSome
          = true) := by
  refine ⟨rfl, rfl, rfl, rfl,
    ⟨"You are explaining one short sentence from a U.S. health insurance form\nto a normal person with no insurance background.\n\nHighlighted text:\n\"",
     "\"\n\nIn **no more than 3 short sentences**, explain:\n- What this part is saying in simple words,\n- What it means for the person reading or filling out the form,\n- If needed, mention **one** thing they should be careful about (such as deadlines or coverage limits).\n\nUse clear language and bold important terms with **this style**.",
     rfl⟩,
    fun _ => ⟨rfl, rfl⟩, fun _ => ⟨rfl, rfl⟩, ?_⟩
  intro r input hin
  refine submitSync_fires _ text hin ?_ ht
  show (handleSelectionSettle (handleSelectionSync s text).1 r).selectedText = some text
  rw [handleSelectionSettle_selectedText]
  rfl

/-- Witness for C4 at the concrete selection "Coinsurance: 20% after deductible". -/
theorem selection_flow_correct_witness :
    (handleSelectionSync initialPageState "Coinsurance: 20% after deductible").1.selectedText =
      some "Coinsurance: 20% after deductible" :=
  (selection_flow_correct initialPageState "Coinsurance: 20% after deductible"
      (by decide)).1

/-- C5: a whitespace-only (i.e. trimming to empty) or collapsed text
selection on pointer-release, or a missing selection, is a no-op for the
viewer — no callback fires, no highlight rectangle is set, the component
state is unchanged; and a follow-up submission whose trimmed input is
empty, or made with no active selection, is a no-op for the page
controller — no message is appended, no request is sent, the state is
unchanged. -/
theorem empty_selection_and_empty_submit_noop (s : PDFState)
    (sel : Option SelectionState) (c : Option ContainerInfo) (p : PageState) :
    ((sel = none ∨
        ∃ ss, sel = some ss ∧ (ss.isCollapsed = true ∨ jsTrim ss.content = "")) →
      handleMouseUp s sel c = (s, [])) ∧
    ((jsTrim p.highlightInput = "" ∨ p.selectedText = none) →
      handleHighlightSubmitSync p = (p, none)) := by
  constructor
  · rintro (rfl | ⟨ss, rfl, hss⟩)
    · rfl
    · rcases hss with hcol | htr
      · simp [handleMouseUp, hcol]
      · by_cases hcol : ss.isCollapsed
        · simp [handleMouseUp, hcol]
        · simp [handleMouseUp, hcol, htr]
  · rintro (htr | hsel)
    · unfold handleHighlightSubmitSync
      dsimp only
      rw [if_pos htr]
    · unfold handleHighlightSubmitSync
      dsimp only
      by_cases htr : jsTrim p.highlightInput = ""
      · rw [if_pos htr]
      · rw [if_neg htr, hsel]

/-- Witness for C5: a collapsed selection on pointer-release, and a
submission in the initial state (no active selection), both leave the
state unchanged. -/
theorem empty_selection_and_empty_submit_noop_witness :
    handleMouseUp initialPDFState
        (some { isCollapsed := true, content := "x"
                rangeRect := { top := 0, left := 0, width := 0, height := 0 } })
        none = (initialPDFState, []) ∧
    handleHighlightSubmitSync initialPageState = (initialPageState, none) :=
  ⟨(empty_selection_and_empty_submit_noop initialPDFState
      (some { isCollapsed := true, content := "x"
              rangeRect := { top := 0, left := 0, width := 0, height := 0 } })
      none initialPageState).1 (Or.inr ⟨_, rfl, Or.inl rfl⟩),
   (empty_selection_and_empty_submit_noop initialPDFState none none
      initialPageState).2 (Or.inr rfl)⟩

/-- Every event step of the viewer preserves `PDFInv`. -/
theorem pdfStep_inv (sys : PDFSys) (e : PDFEvent) (h : PDFInv sys) :
    PDFInv (pdfStep sys e) := by
  cases e with
  | fileChange f =>
      cases f with
      | none => exact h
      | some name =>
          cases hfu : sys.st.fileUrl with
          | none =>
              have ha : sys.env.alive = [] := by
                rw [PDFInv, hfu] at h; exact h
              show PDFInv _
              rw [PDFInv]
              simp [pdfStep, handleFileChange, hfu, createObjectURL,
                revokeObjectURL, ha]
          | some u =>
              have ha : sys.env.alive = [u] := by
                rw [PDFInv, hfu] at h; exact h
              show PDFInv _
              rw [PDFInv]
              simp [pdfStep, handleFileChange, hfu, createObjectURL,
                revokeObjectURL, ha]
  | mouseUp sel c =>
      show PDFInv _
      rw [PDFInv] at h ⊢
      have : ((handleMouseUp sys.st sel c).1).fileUrl = sys.st.fileUrl := by
        unfold handleMouseUp
        match sel with
        | none => rfl
        | some ss =>
            dsimp only
            split
            · rfl
            · split
              · rfl
              · match c with
                | none => rfl
                | some ci => rfl
      rw [pdfStep]
      rw [this]
      exact h
  | mouseDown hc tc =>
      show PDFInv _
      rw [PDFInv] at h ⊢
      have : ((handleMouseDown sys.st hc tc).1).fileUrl = sys.st.fileUrl := by
        unfold handleMouseDown
        split
        · rfl
        · split <;> rfl
      rw [pdfStep, this]
      exact h
  | loadSuccess n => exact h
  | loadError e => exact h

/-- The invariant `PDFInv` holds along every event trace from the initial system. -/
theorem pdfRun_inv (tr : List PDFEvent) : PDFInv (pdfRun tr) := by
  have gen : ∀ (l : List PDFEvent) (sys : PDFSys), PDFInv sys →
      PDFInv (l.foldl pdfStep sys) := by
    intro l
    induction l with
    | nil => intro sys h; exact h
    | cons e rest ih =>
        intro sys h
        exact ih (pdfStep sys e) (pdfStep_inv sys e h)
  exact gen tr initialPDFSys rfl

/-- C6: across every event trace at most one object URL is alive at a
time; and when an upload replaces an existing file, the previous object
URL is revoked strictly before the new one is created (the API log
records the revoke, then the create), the new URL being the only one
alive afterwards. -/
theorem objectURL_single_alive (tr : List PDFEvent) (s : PDFState)
    (env : URLEnv) (u : Nat) (f : String) (hu : s.fileUrl = some u) :
    (pdfRun tr).env.alive.length ≤ 1 ∧
    (handleFileChange s env (some f)).2.1.log =
      env.log ++ [URLAction.revoke u, URLAction.create env.nextId] ∧
    (handleFileChange s env (some f)).2.1.alive =
      env.nextId :: env.alive.erase u ∧
    (handleFileChange s env (some f)).1.fileUrl = some env.nextId := by
  refine ⟨?_, ?_, ?_, ?_⟩
  · have h := pdfRun_inv tr
    rw [PDFInv] at h
    rw [h]
    cases (pdfRun tr).st.fileUrl <;> simp
  · simp [handleFileChange, hu, revokeObjectURL, createObjectURL]
  · simp [handleFileChange, hu, revokeObjectURL, createObjectURL]
  · simp [handleFileChange, hu, revokeObjectURL, createObjectURL]

/-- Witness for C6: a second upload over an alive URL `0` logs the
revoke of `0` before the creation of `1`. -/
theorem objectURL_single_alive_witness :
    (handleFileChange
        { fileObj := some "a.pdf", fileUrl := some 0, numPages := 1
          highlightRect := none }
        { nextId := 1, alive := [0], log := [URLAction.create 0] }
        (some "b.pdf")).2.1.log =
      [URLAction.create 0] ++ [URLAction.revoke 0, URLAction.create 1] :=
  (objectURL_single_alive []
      { fileObj := some "a.pdf", fileUrl := some 0, numPages := 1
        highlightRect := none }
      { nextId := 1, alive := [0], log := [URLAction.create 0] }
      0 "b.pdf" rfl).2.1

/-- C7: choosing a new file while a highlight is active clears the
highlight rectangle and invokes the selection-cleared callback before
invoking the file-loaded callback with the new file's name; when the
picker yields no file the handler changes no state and invokes no
callback. -/
theorem fileChange_clears_highlight_first (s : PDFState) (env : URLEnv)
    (f : String) (rect : HighlightRect) (_hrect : s.highlightRect = some rect) :
    (handleFileChange s env (some f)).1.highlightRect = none ∧
    (handleFileChange s env (some f)).2.2 =
      [ViewerEvent.selectionCleared, ViewerEvent.fileLoaded f] ∧
    handleFileChange s env none = (s, env, []) := by
  exact ⟨rfl, rfl, rfl⟩

/-- Witness for C7: a concrete upload while the rectangle
`(1, 2, 3, 4)` is highlighted. -/
theorem fileChange_clears_highlight_first_witness :
    (handleFileChange
        { fileObj := none, fileUrl := none, numPages := 1
          highlightRect := some { top := 1, left := 2, width := 3, height := 4 } }
        initialURLEnv (some "b.pdf")).1.highlightRect = none :=
  (fileChange_clears_highlight_first
      { fileObj := none, fileUrl := none, numPages := 1
        highlightRect := some { top := 1, left := 2, width := 3, height := 4 } }
      initialURLEnv "b.pdf" { top := 1, left := 2, width := 3, height := 4 }
      rfl).1
